import Mathlib

/-!
Shallow embedding of the core of the `ery` terminal client (an interactive
TUI front-end for the Everything file-indexing service) and proofs about it.

The embedding follows the Rust sources:
  * `src/app/ery.rs`   — `Query`, `QueryResults`, `QueryEntry`, `item_to_entry`
  * `src/app.rs`       — the dispatcher worker spawned in `App::with_sender`,
                         and `App::send_query`
  * `src/tui/ui.rs`    — the `UI` selection/pagination state machine and
                         `key_map_for_textarea`
  * `src/tui.rs`       — `Tui::handle_key_events`, `Tui::up/down/page_up/page_down`
  * `src/main.rs`      — the `Cli` argument surface and `run_tui` startup

Machine integers (`u16`/`u32`/`usize`) are modelled as `Nat`; the source uses
`saturating_add`/`saturating_sub` at every place a subtraction could underflow
except where noted in a doc comment, and `Nat` subtraction is truncated, which
coincides with the source on the in-range inputs used by the theorems below.
-/

namespace Ery

/-! ## Data model (`src/app/ery.rs`) -/

/-- The request-field flag set of the Everything SDK (`RequestFlags` bitflags),
one `Bool` per flag.  `src/app/ery.rs` consults these via
`request_flags.contains(...)`. -/
structure RequestFlags where
  file_name : Bool
  path : Bool
  full_path_and_file_name : Bool
  extension : Bool
  size : Bool
  date_created : Bool
  date_modified : Bool
  date_accessed : Bool
  attributes : Bool
  file_list_file_name : Bool
  run_count : Bool
  date_run : Bool
  date_recently_changed : Bool
  highlighted_file_name : Bool
  highlighted_path : Bool
  highlighted_full_path_and_file_name : Bool
  deriving Repr, DecidableEq

/-- The raw data of one matched item as exposed by the SDK handle
(`EverythingItem` accessors used in `item_to_entry`).  Each accessor is
modelled as an always-available raw value; `item_to_entry` decides from the
flags whether to read it. -/
structure EverythingItem where
  index : Nat
  is_volume : Bool
  is_folder : Bool
  is_file : Bool
  filename : String
  path : String
  filepath : String
  full_path_name : String
  extension : String
  size : Nat
  date_created : Nat
  date_modified : Nat
  date_accessed : Nat
  attributes : Nat
  file_list_filename : String
  run_count : Nat
  date_run : Nat
  date_recently_changed : Nat
  highlighted_filename : String
  highlighted_path : String
  highlighted_full_path_and_filename : String
  deriving Repr, DecidableEq

/-- `QueryEntry` from `src/app/ery.rs`: every attribute beyond the three
`kind` booleans is an `Option`, so an unrequested field is `none`,
structurally distinct from `some ""` or `some 0`. -/
structure QueryEntry where
  index : Nat
  is_volume : Bool
  is_folder : Bool
  is_file : Bool
  filename : Option String
  path : Option String
  filepath : Option String
  full_path_name : Option String
  extension : Option String
  size : Option Nat
  date_created : Option Nat
  date_modified : Option Nat
  date_accessed : Option Nat
  attributes : Option Nat
  file_list_filename : Option String
  run_count : Option Nat
  date_run : Option Nat
  date_recently_changed : Option Nat
  highlighted_filename : Option String
  highlighted_path : Option String
  highlighted_full_path_and_filename : Option String
  deriving Repr, DecidableEq

/-- `Query` from `src/app/ery.rs` (the message sent to the dispatcher
worker).  `sort_type` is kept abstract as a numeric code. -/
structure Query where
  search : String
  match_path : Bool
  match_case : Bool
  match_whole_word : Bool
  regex : Bool
  max : Nat
  offset : Nat
  sort_type : Nat
  request_flags : RequestFlags
  deriving Repr, DecidableEq

/-- `QueryResults` from `src/app/ery.rs` (the batch installed into the
shared result store).  `search` is the echoed search text. -/
structure QueryResults where
  search : String
  offset : Nat
  number : Nat
  total : Nat
  request_flags : RequestFlags
  sort_type : Nat
  entrys : List QueryEntry
  deriving Repr, DecidableEq

/-- `RequestFlags::default()`: the empty flag set. -/
def RequestFlags.default : RequestFlags :=
  ⟨false, false, false, false, false, false, false, false,
   false, false, false, false, false, false, false, false⟩

/-- `QueryResults::default()` (`#[derive(Default)]`): empty echoed search,
zero counts, no entries. -/
def QueryResults.default : QueryResults :=
  { search := ""
    offset := 0
    number := 0
    total := 0
    request_flags := RequestFlags.default
    sort_type := 0
    entrys := [] }

/-- `item_to_entry` from `src/app/ery.rs`: each optional attribute of the
produced `QueryEntry` is read from the item exactly when the governing
request flag is set (`flags.contains(F).then(|| item.f().unwrap())`).
`filepath` is governed by the conjunction of the `PATH` and `FILE_NAME`
flags, mirroring `contains(EVERYTHING_REQUEST_PATH |
EVERYTHING_REQUEST_FILE_NAME)` on the bitflags. -/
def item_to_entry (item : EverythingItem) (request_flags : RequestFlags) : QueryEntry :=
  { index := item.index
    is_volume := item.is_volume
    is_folder := item.is_folder
    is_file := item.is_file
    filename := if request_flags.file_name then some item.filename else none
    path := if request_flags.path then some item.path else none
    filepath :=
      if request_flags.path && request_flags.file_name then some item.filepath else none
    full_path_name :=
      if request_flags.full_path_and_file_name then some item.full_path_name else none
    extension := if request_flags.extension then some item.extension else none
    size := if request_flags.size then some item.size else none
    date_created := if request_flags.date_created then some item.date_created else none
    date_modified := if request_flags.date_modified then some item.date_modified else none
    date_accessed := if request_flags.date_accessed then some item.date_accessed else none
    attributes := if request_flags.attributes then some item.attributes else none
    file_list_filename :=
      if request_flags.file_list_file_name then some item.file_list_filename else none
    run_count := if request_flags.run_count then some item.run_count else none
    date_run := if request_flags.date_run then some item.date_run else none
    date_recently_changed :=
      if request_flags.date_recently_changed then some item.date_recently_changed else none
    highlighted_filename :=
      if request_flags.highlighted_file_name then some item.highlighted_filename else none
    highlighted_path :=
      if request_flags.highlighted_path then some item.highlighted_path else none
    highlighted_full_path_and_filename :=
      if request_flags.highlighted_full_path_and_file_name then
        some item.highlighted_full_path_and_filename
      else none }

/-! ## The dispatcher worker (`src/app.rs`, `App::with_sender`) -/

/-- One response of the external Everything service to a query: the values
the worker reads back from the SDK after `searcher.query()` —
`results.num()`, `results.total()`, `results.request_flags()`,
`results.sort_type()` and the iterated items.  The service is an external
collaborator, so it is modelled as an uninterpreted response. -/
structure ServiceResponse where
  num : Nat
  total : Nat
  request_flags : RequestFlags
  sort_type : Nat
  items : List EverythingItem

/-- The external service as a collaborator: a function from the query set on
the searcher to the response read back.  The SDK contract that `num() <=
total()` and that the iterator yields exactly `num()` items is stated
separately as `ServiceOk` where a proof needs it. -/
def Service : Type := Query → ServiceResponse

/-- The SDK contract assumed by the worker: the visible-result count is at
most the total count, and iterating the results yields exactly `num` items. -/
def ServiceOk (svc : Service) : Prop :=
  ∀ q : Query, (svc q).num ≤ (svc q).total ∧ (svc q).items.length = (svc q).num

/-- One iteration of the dispatcher worker loop in `App::with_sender`
(`src/app.rs` lines 64–95): on an empty `search` no external call is made
and `QueryResults::default()` is sent back; otherwise the searcher is
configured, queried once, and the items are mapped through `item_to_entry`.
The second component counts the external-service calls the iteration makes
(0 or 1), playing the role of a call-count spy.
The echoed `search` is `searcher.get_search()`, which returns exactly the
text just set from the query. -/
def dispatcherStep (svc : Service) (q : Query) : QueryResults × Nat :=
  if q.search = "" then
    (QueryResults.default, 0)
  else
    let r := svc q
    ({ search := q.search
       offset := q.offset
       number := r.num
       total := r.total
       request_flags := r.request_flags
       sort_type := r.sort_type
       entrys := r.items.map (fun i => item_to_entry i r.request_flags) }, 1)

/-- The dispatcher worker over its whole inbound queue: `rx_query.recv()` in
a loop yields the submitted queries in FIFO order, and each result is sent
back on the rendezvous channel (and installed into the shared result store)
before the next query is taken, so the delivered batches are exactly the
per-query results in submission order. -/
def processQueries (svc : Service) (qs : List Query) : List QueryResults :=
  qs.map (fun q => (dispatcherStep svc q).1)

/-- Total number of external-service calls made while processing a queue. -/
def processCalls (svc : Service) (qs : List Query) : Nat :=
  (qs.map (fun q => (dispatcherStep svc q).2)).sum

/-! ## The selection/pagination state machine (`src/tui/ui.rs`, `src/tui.rs`) -/

/-- `ratatui::widgets::ListState`: a scroll offset and an optional selected
row index.  `ListState` itself enforces no bounds; re-validation happens in
the `List` stateful render. -/
structure ListState where
  offset : Nat
  selected : Option Nat
  deriving Repr, DecidableEq

/-- The mutable part of `UI` (`src/tui/ui.rs`) relevant to focus, selection
and pagination.  The text area is carried separately where needed. -/
structure UIState where
  is_focus_search_bar : Bool
  list_state : ListState
  last_page_height : Option Nat
  deriving Repr, DecidableEq

/-- `UI::new()`: focus on the search bar, offset 0, nothing selected, no
page height measured yet. -/
def UIState.new : UIState :=
  { is_focus_search_bar := true
    list_state := { offset := 0, selected := none }
    last_page_height := none }

/-- `UI::is_selected`. -/
def UIState.is_selected (u : UIState) : Bool :=
  u.list_state.selected.isSome

/-- `UI::is_first_selected`. -/
def UIState.is_first_selected (u : UIState) : Bool :=
  match u.list_state.selected with
  | some i => i == 0
  | none => false

/-- `UI::select_first`: selects row 0 when the current batch has at least
one visible result, otherwise leaves the state unchanged.  `number` is
`results.number` read from the shared result store. -/
def UIState.select_first (number : Nat) (u : UIState) : UIState :=
  if number > 0 then
    { u with list_state := { u.list_state with selected := some 0 } }
  else u

/-- `UI::unselect`. -/
def UIState.unselect (u : UIState) : UIState :=
  { u with list_state := { u.list_state with selected := none } }

/-- `UI::select_previous_n`: when the batch is non-empty, moves an existing
selection up by `n` rows with `saturating_sub`, clamped to the last row
(`min (number-1) _`); a `none` selection stays `none`. -/
def UIState.select_previous_n (n : Nat) (number : Nat) (u : UIState) : UIState :=
  if number > 0 then
    let last := number - 1
    { u with list_state :=
      { u.list_state with
        selected := u.list_state.selected.map (fun i => min last (i - n)) } }
  else u

/-- `UI::select_next_n`: when the batch is non-empty, moves an existing
selection down by `n` rows, clamped to the last row. -/
def UIState.select_next_n (n : Nat) (number : Nat) (u : UIState) : UIState :=
  if number > 0 then
    let last := number - 1
    { u with list_state :=
      { u.list_state with
        selected := u.list_state.selected.map (fun i => min last (i + n)) } }
  else u

/-- `UI::is_first_page`. -/
def UIState.is_first_page (u : UIState) : Bool :=
  u.list_state.offset == 0

/-- `UI::is_last_page` with the unwrapped page height `ph`
(`last_page_height.unwrap()`).  The source computes
`results_number - offset` on `u32`; this model uses truncated `Nat`
subtraction, which agrees with the source whenever `offset ≤
results_number` (the regime in which the function is called: the render
pass that precedes every key event writes back an offset below the entry
count). -/
def UIState.is_last_page (ph : Nat) (results_number : Nat) (u : UIState) : Bool :=
  if results_number ≤ ph then true
  else results_number - u.list_state.offset ≤ ph

/-- `UI::select_next_page` with the unwrapped page height `ph`: on the last
page jump the selection to the final row; otherwise advance the offset by a
page and move an existing selection by the same amount, clamped to the last
row. -/
def UIState.select_next_page (ph : Nat) (number : Nat) (u : UIState) : UIState :=
  if number > 0 then
    if u.is_last_page ph number then
      { u with list_state := { u.list_state with selected := some (number - 1) } }
    else
      let old_offset := u.list_state.offset
      let new_offset := old_offset + ph
      let n := new_offset - old_offset
      let last := number - 1
      { u with list_state :=
        { offset := new_offset
          selected := u.list_state.selected.map (fun i => min last (i + n)) } }
  else u

/-- `UI::select_previous_page` with the unwrapped page height `ph`: on the
first page jump the selection to row 0; otherwise retreat the offset by a
page (`saturating_sub`) and move an existing selection up by the same
amount. -/
def UIState.select_previous_page (ph : Nat) (number : Nat) (u : UIState) : UIState :=
  if number > 0 then
    if u.is_first_page then
      { u with list_state := { u.list_state with selected := some 0 } }
    else
      let old_offset := u.list_state.offset
      let new_offset := old_offset - ph
      let n := old_offset - new_offset
      let last := number - 1
      { u with list_state :=
        { offset := new_offset
          selected := u.list_state.selected.map (fun i => min last (i - n)) } }
  else u

/-- `Tui::up` (`src/tui.rs`): only acts when the result list has focus; on
the first row it deselects and returns focus to the search bar, otherwise
it moves the selection up one row. -/
def tuiUp (number : Nat) (u : UIState) : UIState :=
  if !u.is_focus_search_bar then
    if u.is_first_selected then
      { u.unselect with is_focus_search_bar := true }
    else
      u.select_previous_n 1 number
  else u

/-- `Tui::down` (`src/tui.rs`): from the search bar with a non-empty batch
it selects the first row and moves focus to the list; otherwise it moves an
existing selection down one row, or selects the first row when nothing is
selected. -/
def tuiDown (number : Nat) (u : UIState) : UIState :=
  if u.is_focus_search_bar && number > 0 then
    { u.select_first number with is_focus_search_bar := false }
  else
    if u.is_selected then u.select_next_n 1 number
    else u.select_first number

/-- `Tui::page_up`: delegates to `select_previous_page` when the list has
focus.  The page height is the unwrapped `last_page_height`; the `none`
case is unreachable in the event loop because a render always precedes
event handling (in the source it would panic on `unwrap`). -/
def tuiPageUp (number : Nat) (u : UIState) : UIState :=
  if !u.is_focus_search_bar then
    match u.last_page_height with
    | some ph => u.select_previous_page ph number
    | none => u
  else u

/-- `Tui::page_down`: delegates to `select_next_page` when the list has
focus; page height as in `tuiPageUp`. -/
def tuiPageDown (number : Nat) (u : UIState) : UIState :=
  if !u.is_focus_search_bar then
    match u.last_page_height with
    | some ph => u.select_next_page ph number
    | none => u
  else u

/-! ## The render pass (`UI::render`, `src/tui/ui.rs` lines 63–160)

`UI::render` measures the list region height into `last_page_height` and
then calls `frame.render_stateful_widget(list, chunks[1], &mut
self.list_state)`.  The stateful render of `ratatui`'s `List` re-validates
the `ListState` (given a non-degenerate list area): with an empty item list
it clears the selection; otherwise it clamps an out-of-bounds selection to
the last item and rewrites the scroll offset to the first visible index.
The exact first-visible-index computation is abstracted below as an
arbitrary value supplied by the render, clamped into the item range, which
over-approximates the real scrolling behaviour. -/

/-- One render pass over the UI state, reading the current batch `b`.
`ph` is the measured page height, `scroll` abstracts the offset that the
stateful list render writes back. -/
def renderPass (b : QueryResults) (ph : Nat) (scroll : Nat) (u : UIState) : UIState :=
  let len := b.entrys.length
  let ls := u.list_state
  let ls2 :=
    if len = 0 then { ls with selected := none }
    else
      { offset := min scroll (len - 1)
        selected := ls.selected.map (fun s => min s (len - 1)) }
  { is_focus_search_bar := u.is_focus_search_bar
    list_state := ls2
    last_page_height := some ph }

/-! ## The event loop (`Tui::run_loop`, `src/tui.rs` lines 56–76)

The loop alternates `self.draw(app)` with handling one received event, so
every navigation command executes right after a render pass, against the
result batch current at that moment.  The dispatcher may replace the batch
in the shared store at any point between iterations; the loop model lets
each iteration carry an arbitrary replacement batch. -/

/-- The navigation commands the selection/pagination state machine
reacts to. -/
inductive NavCmd
  | up
  | down
  | pageUp
  | pageDown
  | selectFirst
  deriving Repr, DecidableEq

/-- Dispatch of one navigation command against the batch count `number`. -/
def applyNav (c : NavCmd) (number : Nat) (u : UIState) : UIState :=
  match c with
  | .up => tuiUp number u
  | .down => tuiDown number u
  | .pageUp => tuiPageUp number u
  | .pageDown => tuiPageDown number u
  | .selectFirst => u.select_first number

/-- One iteration of the event loop: the batch current when the iteration
renders (an arbitrary replacement installed by the dispatcher), the page
height measured by that render, the scroll offset the stateful render
writes back, and the navigation command handled afterwards. -/
structure LoopStep where
  batch : QueryResults
  ph : Nat
  scroll : Nat
  cmd : NavCmd

/-- Run one loop iteration: render against the current batch, then handle
the navigation command against that same batch. -/
def loopStep (p : UIState × QueryResults) (st : LoopStep) : UIState × QueryResults :=
  (applyNav st.cmd st.batch.number (renderPass st.batch st.ph st.scroll p.1), st.batch)

/-- Run the event loop from the initial state (`UI::new()` and the
`Default` batch in the shared store) over a whole trace of iterations. -/
def runLoop (tr : List LoopStep) : UIState × QueryResults :=
  tr.foldl loopStep (UIState.new, QueryResults.default)

/-- The selection bound invariant: the selected index is `none` or strictly
below the given count. -/
def selectionOk (u : UIState) (n : Nat) : Bool :=
  match u.list_state.selected with
  | none => true
  | some i => decide (i < n)

/-! ## Submit handling (`Tui::handle_key_events`, Enter branch,
`src/tui.rs` lines 207–240) -/

/-- The `Query` built by `App::send_query` (`src/app.rs` lines 162–174)
for a given search text: default options, `max = 512`, `offset = 0`. -/
def sendQueryOf (s : String) : Query :=
  { search := s
    match_path := false
    match_case := false
    match_whole_word := false
    regex := false
    max := 512
    offset := 0
    sort_type := 0
    request_flags := RequestFlags.default }

/-- The Enter branch of `Tui::handle_key_events` while the search bar has
focus: when the edit-box text equals the echoed search text of the current
batch, select the first row and move focus to the list without dispatching;
otherwise dispatch `App::send_query` for the edit text and clear the
selection.  Returns the new UI state and the dispatched query, if any.
With focus on the result list the Enter key activates the selected entry (a
host-environment side effect) and changes no state. -/
def submitEnter (edit : String) (results : QueryResults) (u : UIState) :
    UIState × Option Query :=
  if u.is_focus_search_bar then
    if results.search = edit then
      ({ u.select_first results.number with is_focus_search_bar := false }, none)
    else
      (u.unselect, some (sendQueryOf edit))
  else (u, none)

/-! ## Key routing (`Tui::handle_key_events`, `src/tui.rs` lines 186–276,
and `key_map_for_textarea`, `src/tui/ui.rs` lines 404–503) -/

/-- The crossterm `KeyCode` variants; the decoration keys that play no role
here (caps lock, media keys, modifier keys, …) are collapsed into
`other`. -/
inductive KeyCode
  | backspace
  | enter
  | left
  | right
  | up
  | down
  | home
  | endKey
  | pageUp
  | pageDown
  | tab
  | backTab
  | delete
  | insert
  | f (n : Nat)
  | char (c : Char)
  | null
  | esc
  | other
  deriving Repr, DecidableEq

/-- Crossterm key modifiers as a flag set; `super`, `hyper` and `meta` are
collapsed into `moreMods`. -/
structure KeyModifiers where
  ctrl : Bool
  shift : Bool
  alt : Bool
  moreMods : Bool
  deriving Repr, DecidableEq

/-- Equality test `key_event.modifiers == KeyModifiers::CONTROL`. -/
def KeyModifiers.isCtrlOnly (m : KeyModifiers) : Bool :=
  m.ctrl && !m.shift && !m.alt && !m.moreMods

/-- Crossterm `KeyEventKind`. -/
inductive KeyEventKind
  | press
  | keyRepeat
  | release
  deriving Repr, DecidableEq

/-- Crossterm `KeyEvent`. -/
structure KeyEvent where
  code : KeyCode
  mods : KeyModifiers
  kind : KeyEventKind
  deriving Repr, DecidableEq

/-- The `tui_textarea::Key` variants. -/
inductive Key
  | char (c : Char)
  | backspace
  | enter
  | left
  | right
  | up
  | down
  | tab
  | delete
  | home
  | endKey
  | pageUp
  | pageDown
  | esc
  | f (n : Nat)
  | copy
  | cut
  | paste
  | mouseScrollUp
  | mouseScrollDown
  | null
  deriving Repr, DecidableEq

/-- The `tui_textarea::Input` record. -/
structure Input where
  key : Key
  ctrl : Bool
  shift : Bool
  alt : Bool
  deriving Repr, DecidableEq

/-- The `From<crossterm KeyCode> for tui_textarea::Key` conversion: the
named keys map across and everything else (including `BackTab`) becomes
`Key::Null`. -/
def keyCodeToKey : KeyCode → Key
  | .backspace => .backspace
  | .enter => .enter
  | .left => .left
  | .right => .right
  | .up => .up
  | .down => .down
  | .home => .home
  | .endKey => .endKey
  | .pageUp => .pageUp
  | .pageDown => .pageDown
  | .tab => .tab
  | .delete => .delete
  | .f n => .f n
  | .char c => .char c
  | .esc => .esc
  | .backTab => .null
  | .insert => .null
  | .null => .null
  | .other => .null

/-- The `key_event.into()` conversion used at the textarea fallthrough. -/
def inputOfKeyEvent (e : KeyEvent) : Input :=
  { key := keyCodeToKey e.code
    ctrl := e.mods.ctrl
    shift := e.mods.shift
    alt := e.mods.alt }

/-- The effect `key_map_for_textarea` has on the text area. -/
inductive TextareaEffect
  | copyText
  | cutText
  | pasteText
  | wordForward
  | wordBack
  | deleteWord
  | selectWordForward
  | selectWordBack
  | undo
  | ignored
  | unreachableBranch
  | insertInput (i : Input)
  deriving Repr, DecidableEq

/-- `key_map_for_textarea` from `src/tui/ui.rs`, written as the ordered
linearization of its `match`: each condition is the arm's pattern; the
second-to-last arm is the `unreachable!()` branch for `Enter`, `Esc` and
`Tab`, and the final arm forwards the input to the text buffer. -/
def key_map_for_textarea (i : Input) : TextareaEffect :=
  if (i.key = .char 'c' ∧ i.ctrl ∧ ¬i.shift ∧ ¬i.alt) ∨ i.key = .copy then .copyText
  else if (i.key = .char 'x' ∧ i.ctrl ∧ ¬i.shift ∧ ¬i.alt) ∨ i.key = .cut then .cutText
  else if (i.key = .char 'v' ∧ i.ctrl ∧ ¬i.shift ∧ ¬i.alt) ∨ i.key = .paste then .pasteText
  else if i.key = .right ∧ i.ctrl ∧ ¬i.shift ∧ ¬i.alt then .wordForward
  else if i.key = .left ∧ i.ctrl ∧ ¬i.shift ∧ ¬i.alt then .wordBack
  else if i.key = .backspace ∧ i.ctrl ∧ ¬i.shift ∧ ¬i.alt then .deleteWord
  else if i.key = .right ∧ i.ctrl ∧ i.shift ∧ ¬i.alt then .selectWordForward
  else if i.key = .left ∧ i.ctrl ∧ i.shift ∧ ¬i.alt then .selectWordBack
  else if i.key = .char 'z' ∧ i.ctrl ∧ ¬i.shift ∧ ¬i.alt then .undo
  else if i.ctrl then .ignored
  else if i.key = .enter ∨ i.key = .esc ∨ i.key = .tab then .unreachableBranch
  else .insertInput i

/-- Where `Tui::handle_key_events` routes a key event. -/
inductive KeyRoute
  | quit
  | focusSearchBar
  | submitOrActivate
  | tabToggle
  | navUp
  | navDown
  | navPageUp
  | navPageDown
  | textarea (i : Input)
  | ignored
  deriving Repr, DecidableEq

/-- The routing decision of `Tui::handle_key_events` (`src/tui.rs` lines
186–276).  Release events are dropped; `Esc`, `Ctrl+C`, `Enter`,
list-focused `Backspace`, `Tab`, `Up`, `Down`, `PageUp` and `PageDown`
are intercepted, and only the remaining key inputs reach
`key_map_for_textarea` (and only while the search bar has focus). -/
def handleKeyRoute (e : KeyEvent) (focusSearch : Bool) : KeyRoute :=
  if e.kind = .release then .ignored
  else
    let fallthrough : KeyRoute :=
      if focusSearch then .textarea (inputOfKeyEvent e) else .ignored
    match e.code with
    | .esc => if focusSearch then .quit else .focusSearchBar
    | .char c =>
        if (c = 'c' ∨ c = 'C') ∧ e.mods.isCtrlOnly then .quit else fallthrough
    | .enter => .submitOrActivate
    | .backspace => if !focusSearch then .focusSearchBar else fallthrough
    | .tab => .tabToggle
    | .up => .navUp
    | .down => .navDown
    | .pageUp => .navPageUp
    | .pageDown => .navPageDown
    | _ => fallthrough

/-! ## CLI surface and startup (`src/main.rs`) -/

/-- An observable step of `run_tui`'s startup: the dispatch of a query or
the first draw of the terminal UI. -/
inductive StartupEvent
  | dispatch (q : Query)
  | firstDraw
  deriving Repr, DecidableEq

/-- The clap parse of `Cli { text: Option<String> }` (`src/main.rs` lines
13–18): a single optional positional argument.  No argument parses to
`none`, one argument parses to itself, and any further positional argument
is a clap usage error. -/
def parseCli : List String → Except String (Option String)
  | [] => .ok none
  | [t] => .ok (some t)
  | _ :: _ :: _ => .error "unexpected argument"

/-- `handle_send_query` (`src/handler.rs` lines 65–80): builds the `Query`
for the first line of the search buffer with default options and
`max = 64`, and sends it to the dispatcher. -/
def handleSendQueryOf (buffer : String) : Query :=
  { search := buffer
    match_path := false
    match_case := false
    match_whole_word := false
    regex := false
    max := 64
    offset := 0
    sort_type := 0
    request_flags := RequestFlags.default }

/-- Modelled from the spec: `App::set_search_text`, called by `run_tui`
before the first draw, belongs to the `App` variant `src/main.rs` links
against, whose definition is not among the given sources.  The spec treats
the search input as an opaque single-line editable text buffer, so setting
the initial search text makes the buffer's (single) line that text. -/
def setSearchText (text : String) : String := text

/-- The startup behaviour of `run_tui` (`src/main.rs` lines 28–45) as the
ordered trace of observable events up to and including the first draw:
with an initial search text the buffer is set and `handle_send_query`
dispatches a query for it before the loop's first `tui.draw`. -/
def runTuiStartup : Option String → List StartupEvent
  | some t => [.dispatch (handleSendQueryOf (setSearchText t)), .firstDraw]
  | none => [.firstDraw]

/-- `main` up to the first draw: parse the command line, then start the
TUI. -/
def mainStartup (args : List String) : Except String (List StartupEvent) :=
  (parseCli args).map runTuiStartup

/-! ## Helper lemmas: the selection bound through each state-machine
operation -/

/-- `select_first` keeps the selection bound. -/
theorem selectionOk_select_first (u : UIState) (n : Nat)
    (h : selectionOk u n = true) : selectionOk (u.select_first n) n = true := by
  unfold UIState.select_first
  split
  · simpa [selectionOk] using by omega
  · exact h

/-- `unselect` trivially satisfies the selection bound. -/
theorem selectionOk_unselect (u : UIState) (n : Nat) :
    selectionOk u.unselect n = true := by
  simp [selectionOk, UIState.unselect]

/-- `select_previous_n` keeps the selection bound. -/
theorem selectionOk_select_previous_n (k : Nat) (u : UIState) (n : Nat)
    (h : selectionOk u n = true) : selectionOk (u.select_previous_n k n) n = true := by
  unfold UIState.select_previous_n
  split
  · cases hsel : u.list_state.selected with
    | none => simp [selectionOk, hsel]
    | some i => simp [selectionOk, hsel]; omega
  · exact h

/-- `select_next_n` keeps the selection bound. -/
theorem selectionOk_select_next_n (k : Nat) (u : UIState) (n : Nat)
    (h : selectionOk u n = true) : selectionOk (u.select_next_n k n) n = true := by
  unfold UIState.select_next_n
  split
  · cases hsel : u.list_state.selected with
    | none => simp [selectionOk, hsel]
    | some i => simp [selectionOk, hsel]; omega
  · exact h

/-- `select_next_page` keeps the selection bound. -/
theorem selectionOk_select_next_page (ph : Nat) (u : UIState) (n : Nat)
    (h : selectionOk u n = true) : selectionOk (u.select_next_page ph n) n = true := by
  unfold UIState.select_next_page
  split
  · split
    · simpa [selectionOk] using by omega
    · cases hsel : u.list_state.selected with
      | none => simp [selectionOk, hsel]
      | some i => simp [selectionOk, hsel]; omega
  · exact h

/-- `select_previous_page` keeps the selection bound. -/
theorem selectionOk_select_previous_page (ph : Nat) (u : UIState) (n : Nat)
    (h : selectionOk u n = true) : selectionOk (u.select_previous_page ph n) n = true := by
  unfold UIState.select_previous_page
  split
  · split
    · simpa [selectionOk] using by omega
    · cases hsel : u.list_state.selected with
      | none => simp [selectionOk, hsel]
      | some i => simp [selectionOk, hsel]; omega
  · exact h

/-- `Tui::up` keeps the selection bound. -/
theorem selectionOk_tuiUp (u : UIState) (n : Nat)
    (h : selectionOk u n = true) : selectionOk (tuiUp n u) n = true := by
  unfold tuiUp
  split
  · split
    · simp [selectionOk, UIState.unselect]
    · exact selectionOk_select_previous_n 1 u n h
  · exact h

/-- `Tui::down` keeps the selection bound. -/
theorem selectionOk_tuiDown (u : UIState) (n : Nat)
    (h : selectionOk u n = true) : selectionOk (tuiDown n u) n = true := by
  unfold tuiDown
  split
  · rename_i hcond
    have hn : 0 < n := by
      simp at hcond
      omega
    simp [UIState.select_first, hn, selectionOk]
  · split
    · exact selectionOk_select_next_n 1 u n h
    · exact selectionOk_select_first u n h

/-- `Tui::page_up` keeps the selection bound. -/
theorem selectionOk_tuiPageUp (u : UIState) (n : Nat)
    (h : selectionOk u n = true) : selectionOk (tuiPageUp n u) n = true := by
  unfold tuiPageUp
  split
  · cases u.last_page_height with
    | some ph => exact selectionOk_select_previous_page ph u n h
    | none => exact h
  · exact h

/-- `Tui::page_down` keeps the selection bound. -/
theorem selectionOk_tuiPageDown (u : UIState) (n : Nat)
    (h : selectionOk u n = true) : selectionOk (tuiPageDown n u) n = true := by
  unfold tuiPageDown
  split
  · cases u.last_page_height with
    | some ph => exact selectionOk_select_next_page ph u n h
    | none => exact h
  · exact h

/-- Every navigation command keeps the selection bound. -/
theorem selectionOk_applyNav (c : NavCmd) (u : UIState) (n : Nat)
    (h : selectionOk u n = true) : selectionOk (applyNav c n u) n = true := by
  cases c with
  | up => exact selectionOk_tuiUp u n h
  | down => exact selectionOk_tuiDown u n h
  | pageUp => exact selectionOk_tuiPageUp u n h
  | pageDown => exact selectionOk_tuiPageDown u n h
  | selectFirst => exact selectionOk_select_first u n h

/-- A render pass establishes the selection bound from any prior state,
for a batch whose entry list has length equal to its returned count. -/
theorem selectionOk_renderPass (b : QueryResults) (ph scroll : Nat) (u : UIState)
    (hwf : b.entrys.length = b.number) :
    selectionOk (renderPass b ph scroll u) b.number = true := by
  unfold renderPass
  simp only
  split
  · simp [selectionOk]
  · rename_i hne
    cases hsel : u.list_state.selected with
    | none => simp [selectionOk, hsel]
    | some i => simp [selectionOk, hsel]; omega

/-- One loop iteration establishes the selection bound with respect to the
batch it ran against. -/
theorem selectionOk_loopStep (p : UIState × QueryResults) (st : LoopStep)
    (hwf : st.batch.entrys.length = st.batch.number) :
    selectionOk (loopStep p st).1 (loopStep p st).2.number = true := by
  unfold loopStep
  exact selectionOk_applyNav st.cmd _ _
    (selectionOk_renderPass st.batch st.ph st.scroll p.1 hwf)

/-- Folding the loop from any state whose selection bound holds keeps the
bound at the end, given well-formed batches along the trace. -/
theorem selectionOk_foldLoop (tr : List LoopStep) :
    ∀ p : UIState × QueryResults, selectionOk p.1 p.2.number = true →
      (∀ st ∈ tr, st.batch.entrys.length = st.batch.number) →
      selectionOk (tr.foldl loopStep p).1 (tr.foldl loopStep p).2.number = true := by
  induction tr with
  | nil => intro p h _; simpa using h
  | cons st tr ih =>
      intro p _ hwf
      simp only [List.foldl_cons]
      exact ih (loopStep p st)
        (selectionOk_loopStep p st (hwf st (List.mem_cons_self st tr)))
        (fun s hs => hwf s (List.mem_cons_of_mem st hs))

/-- A sample matched item (used to build concrete batches in witnesses). -/
def sampleItem : EverythingItem :=
  { index := 0
    is_volume := false
    is_folder := false
    is_file := true
    filename := "a.txt"
    path := "C:\\docs"
    filepath := "C:\\docs\\a.txt"
    full_path_name := "C:\\docs\\a.txt"
    extension := "txt"
    size := 10
    date_created := 1
    date_modified := 2
    date_accessed := 3
    attributes := 32
    file_list_filename := ""
    run_count := 0
    date_run := 0
    date_recently_changed := 0
    highlighted_filename := "a.txt"
    highlighted_path := "C:\\docs"
    highlighted_full_path_and_filename := "C:\\docs\\a.txt" }

/-- Auxiliary: presence of a flag-guarded optional value equals the flag. -/
theorem isSome_ite_bool {α : Type} (b : Bool) (x : α) :
    (if b then some x else none).isSome = b := by
  cases b <;> simp

/-- The echoed search text of a produced batch is the query's search text
(`searcher.get_search()` after `set_search`, or the `Default` empty echo on
the empty-query fast path). -/
theorem dispatcherStep_search (svc : Service) (q : Query) :
    (dispatcherStep svc q).1.search = q.search := by
  unfold dispatcherStep
  split
  · rename_i h
    simp [QueryResults.default, h]
  · rfl

/-- C1: for every sequence of navigation commands (move-up, move-down,
page-up, page-down, select-first) interleaved with arbitrary replacements
of the current result batch — including replacement by a batch with zero
or fewer entries — the selected index after each loop iteration is `none`
or strictly below the current batch's count.  Each iteration handles its
command right after the render pass that lazily re-validates (clamps or
clears) the selection against the batch current at that moment, mirroring
`Tui::run_loop`, which draws before handling every event.  Quantifying
over all traces covers every prefix, i.e. the bound holds after each
step. -/
theorem c1_selection_bound_invariant (tr : List LoopStep)
    (hwf : ∀ st ∈ tr, st.batch.entrys.length = st.batch.number) :
    selectionOk (runLoop tr).1 (runLoop tr).2.number = true := by
  unfold runLoop
  exact selectionOk_foldLoop tr (UIState.new, QueryResults.default)
    (by simp [selectionOk, UIState.new]) hwf

/-- A concrete two-entry batch for the C1 witness trace. -/
def sampleBatchTwo : QueryResults :=
  { search := "a"
    offset := 0
    number := 2
    total := 7
    request_flags := RequestFlags.default
    sort_type := 0
    entrys := [item_to_entry sampleItem RequestFlags.default,
               item_to_entry sampleItem RequestFlags.default] }

/-- A concrete loop trace for the C1 witness: navigate into a two-entry
batch, then the batch shrinks to the empty default batch, then grows
again. -/
def sampleTrace : List LoopStep :=
  [ { batch := sampleBatchTwo, ph := 10, scroll := 0, cmd := .down },
    { batch := sampleBatchTwo, ph := 10, scroll := 0, cmd := .pageDown },
    { batch := QueryResults.default, ph := 10, scroll := 0, cmd := .up },
    { batch := sampleBatchTwo, ph := 10, scroll := 1, cmd := .selectFirst } ]

/-- Witness for C1 at the concrete trace `sampleTrace`. -/
theorem c1_selection_bound_invariant_witness :
    (∀ st ∈ sampleTrace, st.batch.entrys.length = st.batch.number) ∧
    selectionOk (runLoop sampleTrace).1 (runLoop sampleTrace).2.number = true :=
  ⟨by decide, c1_selection_bound_invariant sampleTrace (by decide)⟩

/-- C2: on a submitted query whose search text is empty, the dispatcher
worker makes zero calls to the external service and immediately produces
`QueryResults::default()`: returned count and total count both 0 and no
entries (hence no optional entry fields at all). -/
theorem c2_empty_query_fast_path (svc : Service) (q : Query) (h : q.search = "") :
    dispatcherStep svc q = (QueryResults.default, 0) ∧
    (dispatcherStep svc q).1.number = 0 ∧
    (dispatcherStep svc q).1.total = 0 ∧
    (dispatcherStep svc q).1.entrys = [] := by
  simp [dispatcherStep, h, QueryResults.default]

/-- A concrete external service responding with no results, used as the
call-count spy target in the C2 witness. -/
def svcEmpty : Service := fun _ =>
  { num := 0, total := 0, request_flags := RequestFlags.default, sort_type := 0, items := [] }

/-- Witness for C2 at the concrete empty-text query. -/
theorem c2_empty_query_fast_path_witness :
    (sendQueryOf "").search = "" ∧
    dispatcherStep svcEmpty (sendQueryOf "") = (QueryResults.default, 0) :=
  ⟨rfl, (c2_empty_query_fast_path svcEmpty (sendQueryOf "") rfl).1⟩

/-- C3: for every item and every flag set, each optional field of
`item_to_entry item flags` is `some` exactly when its governing request
flag is set (`filepath` is governed by the `PATH` and `FILE_NAME` flags
jointly, as in `contains(EVERYTHING_REQUEST_PATH |
EVERYTHING_REQUEST_FILE_NAME)`); an unrequested field is `none`, which is
distinct from an empty-string or zero value. -/
theorem c3_field_presence_matches_flags (item : EverythingItem) (flags : RequestFlags) :
    let e := item_to_entry item flags
    e.filename.isSome = flags.file_name ∧
    e.path.isSome = flags.path ∧
    e.filepath.isSome = (flags.path && flags.file_name) ∧
    e.full_path_name.isSome = flags.full_path_and_file_name ∧
    e.extension.isSome = flags.extension ∧
    e.size.isSome = flags.size ∧
    e.date_created.isSome = flags.date_created ∧
    e.date_modified.isSome = flags.date_modified ∧
    e.date_accessed.isSome = flags.date_accessed ∧
    e.attributes.isSome = flags.attributes ∧
    e.file_list_filename.isSome = flags.file_list_file_name ∧
    e.run_count.isSome = flags.run_count ∧
    e.date_run.isSome = flags.date_run ∧
    e.date_recently_changed.isSome = flags.date_recently_changed ∧
    e.highlighted_filename.isSome = flags.highlighted_file_name ∧
    e.highlighted_path.isSome = flags.highlighted_path ∧
    e.highlighted_full_path_and_filename.isSome
      = flags.highlighted_full_path_and_file_name ∧
    (flags.file_name = false → e.filename ≠ some "") ∧
    (flags.size = false → e.size ≠ some 0) := by
  simp only [item_to_entry, isSome_ite_bool]
  refine ⟨trivial, trivial, trivial, trivial, trivial, trivial, trivial, trivial,
    trivial, trivial, trivial, trivial, trivial, trivial, trivial, trivial, trivial,
    ?_, ?_⟩
  · intro h
    simp [h]
  · intro h
    simp [h]

/-- A batch whose echoed search text is `"a"` but which carries zero
results (as returned for a query with no matches). -/
def batchEchoA : QueryResults :=
  { QueryResults.default with search := "a" }

/-- Counterexample to C4 as stated: with focus on the search box, the edit
text `"a"` equal to the echoed search text of the current (zero-result)
batch, submitting flips focus to the result list and dispatches nothing,
but the selected index is not 0 — `UI::select_first` only selects when the
batch has at least one result. -/
theorem c4_counterexample :
    UIState.new.is_focus_search_bar = true ∧
    batchEchoA.search = "a" ∧
    (submitEnter "a" batchEchoA UIState.new).2 = none ∧
    (submitEnter "a" batchEchoA UIState.new).1.is_focus_search_bar = false ∧
    (submitEnter "a" batchEchoA UIState.new).1.list_state.selected ≠ some 0 := by
  decide

/-- C4 (amended): with focus on the search box, if the edit-box text
equals the echoed search text of the current batch then submit flips focus
to the result list without dispatching a query, and sets the selected
index to 0 exactly when the batch is non-empty (an empty batch leaves the
selection unchanged); otherwise submit dispatches `App::send_query` for
the edit text, clears the selection and keeps focus on the search box. -/
theorem c4_submit_elision (edit : String) (results : QueryResults) (u : UIState)
    (hf : u.is_focus_search_bar = true) :
    (results.search = edit →
      (submitEnter edit results u).2 = none ∧
      (submitEnter edit results u).1.is_focus_search_bar = false ∧
      (0 < results.number →
        (submitEnter edit results u).1.list_state.selected = some 0) ∧
      (results.number = 0 →
        (submitEnter edit results u).1.list_state.selected = u.list_state.selected)) ∧
    (results.search ≠ edit →
      (submitEnter edit results u).2 = some (sendQueryOf edit) ∧
      (submitEnter edit results u).1.list_state.selected = none ∧
      (submitEnter edit results u).1.is_focus_search_bar = true) := by
  constructor
  · intro he
    have h2 : submitEnter edit results u =
        ({ u.select_first results.number with is_focus_search_bar := false }, none) := by
      simp [submitEnter, hf, he]
    rw [h2]
    refine ⟨rfl, rfl, fun hn => ?_, fun hn => ?_⟩
    · simp [UIState.select_first, hn]
    · simp [UIState.select_first, hn]
  · intro hne
    have h2 : submitEnter edit results u = (u.unselect, some (sendQueryOf edit)) := by
      simp [submitEnter, hf, hne]
    rw [h2]
    exact ⟨rfl, rfl, hf⟩

/-- Witness for C4 at a concrete non-matching edit text. -/
theorem c4_submit_elision_witness :
    (submitEnter "b" QueryResults.default UIState.new).2 = some (sendQueryOf "b") ∧
    (submitEnter "b" QueryResults.default UIState.new).1.list_state.selected = none := by
  have h := (c4_submit_elision "b" QueryResults.default UIState.new rfl).2 (by decide)
  exact ⟨h.1, h.2.1⟩

/-- The page-down transition of the C5 scenario: 100 results, measured
page height 20, focus on the result list. -/
def pageDownStep (u : UIState) : UIState := tuiPageDown 100 u

/-- The C5 start state: first row selected, scroll offset 0, focus on the
result list, last measured page height 20. -/
def pageDownStart : UIState :=
  { is_focus_search_bar := false
    list_state := { offset := 0, selected := some 0 }
    last_page_height := some 20 }

/-- C5: with 100 results and a last page height of 20, repeated page-down
from selected index 0 and offset 0 reaches selected index 99 at the fifth
step and not earlier, and every further page-down leaves the whole state
unchanged. -/
theorem c5_page_down_boundary :
    (pageDownStep^[5] pageDownStart).list_state.selected = some 99 ∧
    (pageDownStep^[0] pageDownStart).list_state.selected ≠ some 99 ∧
    (pageDownStep^[1] pageDownStart).list_state.selected ≠ some 99 ∧
    (pageDownStep^[2] pageDownStart).list_state.selected ≠ some 99 ∧
    (pageDownStep^[3] pageDownStart).list_state.selected ≠ some 99 ∧
    (pageDownStep^[4] pageDownStart).list_state.selected ≠ some 99 ∧
    (∀ k : Nat, pageDownStep^[5 + k] pageDownStart = pageDownStep^[5] pageDownStart) := by
  have hfix : pageDownStep (pageDownStep^[5] pageDownStart)
      = pageDownStep^[5] pageDownStart := by decide
  refine ⟨by decide, by decide, by decide, by decide, by decide, by decide, ?_⟩
  intro k
  induction k with
  | zero => rfl
  | succ k ih =>
      have harith : 5 + (k + 1) = (5 + k) + 1 := by omega
      rw [harith, Function.iterate_succ_apply', ih, hfix]

/-- C6: the dispatcher worker processes its queue strictly in submission
order and delivers one batch per request in that same order (the inbound
channel is FIFO and each result is sent back, and installed, before the
next request is taken); inspected by echoed search text, the delivered
sequence matches the submitted sequence exactly. -/
theorem c6_order_preservation (svc : Service) (qs : List Query) :
    (processQueries svc qs).map QueryResults.search = qs.map Query.search ∧
    (processQueries svc qs).length = qs.length := by
  constructor
  · induction qs with
    | nil => rfl
    | cons q qs ih =>
        simpa [processQueries, dispatcherStep_search svc q] using ih
  · simp [processQueries]

/-- Counterexample to C7 as stated: two free-text arguments are not joined
with a space into one search text; clap rejects the second positional
argument outright. -/
theorem c7_counterexample :
    mainStartup ["foo", "bar"] = Except.error "unexpected argument" := rfl

/-- C7 (amended): the command line accepts at most one free-text argument;
with no argument the startup goes straight to the first draw without
dispatching, and with one argument a query for exactly that text is
dispatched before the first draw. -/
theorem c7_cli_initial_query (args : List String) (evs : List StartupEvent)
    (h : mainStartup args = .ok evs) :
    args.length ≤ 1 ∧
    (args = [] → evs = [.firstDraw]) ∧
    (∀ t, args = [t] → evs = [.dispatch (handleSendQueryOf t), .firstDraw]) := by
  match args with
  | [] =>
      have he : evs = [StartupEvent.firstDraw] := by
        simpa [mainStartup, parseCli, runTuiStartup, Except.map] using h.symm
      exact ⟨by simp, fun _ => he, by simp⟩
  | [a] =>
      have he : evs = [StartupEvent.dispatch (handleSendQueryOf a), StartupEvent.firstDraw] := by
        simpa [mainStartup, parseCli, runTuiStartup, setSearchText, Except.map] using h.symm
      refine ⟨by simp, by simp, fun t ht => ?_⟩
      obtain rfl : a = t := by simpa using ht
      exact he
  | a :: b :: rest =>
      exact absurd h (by simp [mainStartup, parseCli, Except.map])

/-- Witness for C7 at the concrete single argument command line. -/
theorem c7_cli_initial_query_witness :
    mainStartup ["hello"]
      = Except.ok [StartupEvent.dispatch (handleSendQueryOf "hello"),
                   StartupEvent.firstDraw] := by
  have h0 : mainStartup ["hello"] = Except.ok (runTuiStartup (some "hello")) := rfl
  have h1 := (c7_cli_initial_query ["hello"] (runTuiStartup (some "hello")) h0).2.2
    "hello" rfl
  rw [h0, h1]

/-- C8: assuming the SDK contract (`num() <= total()` and the results
iterator yields exactly `num()` items), every batch the shared result
store can hold — the initial `Default` batch or any batch produced by the
dispatcher for any query — satisfies `returned_count <= total_count` (so
the renderer's `assert!(num <= total)` never fails) and has exactly
`returned_count` entries. -/
theorem c8_batch_count_invariant (svc : Service) (h : ServiceOk svc) (q : Query) :
    (dispatcherStep svc q).1.number ≤ (dispatcherStep svc q).1.total ∧
    (dispatcherStep svc q).1.entrys.length = (dispatcherStep svc q).1.number ∧
    QueryResults.default.number ≤ QueryResults.default.total ∧
    QueryResults.default.entrys.length = QueryResults.default.number := by
  refine ⟨?_, ?_, le_refl _, rfl⟩ <;> unfold dispatcherStep <;> split
  · simp [QueryResults.default]
  · exact (h q).1
  · simp [QueryResults.default]
  · simpa using (h q).2

/-- A concrete external service answering every query with one of two
indexed items, used in the C8 witness. -/
def svcOne : Service := fun _ =>
  { num := 1
    total := 2
    request_flags := RequestFlags.default
    sort_type := 0
    items := [sampleItem] }

/-- Witness for C8 at the concrete service `svcOne` and a concrete
query. -/
theorem c8_batch_count_invariant_witness :
    ServiceOk svcOne ∧
    (dispatcherStep svcOne (sendQueryOf "x")).1.number
      ≤ (dispatcherStep svcOne (sendQueryOf "x")).1.total ∧
    (dispatcherStep svcOne (sendQueryOf "x")).1.entrys.length
      = (dispatcherStep svcOne (sendQueryOf "x")).1.number := by
  have hok : ServiceOk svcOne := fun _ => ⟨by simp [svcOne], rfl⟩
  have h := c8_batch_count_invariant svcOne hok (sendQueryOf "x")
  exact ⟨hok, h.1, h.2.1⟩

/-- C9: from focus on the search box with nothing selected and a batch of
5 results, the Down key moves focus to the result list with row 0
selected, and the Up key from that state returns to the search box with
nothing selected (the exact initial state). -/
theorem c9_focus_toggle :
    tuiDown 5 UIState.new =
      { is_focus_search_bar := false
        list_state := { offset := 0, selected := some 0 }
        last_page_height := none } ∧
    tuiUp 5 (tuiDown 5 UIState.new) = UIState.new := by
  decide

/-- Conversion of a forwarded key code never produces the intercepted
text-area keys. -/
theorem keyCodeToKey_not_intercepted (code : KeyCode)
    (h1 : code ≠ .enter) (h2 : code ≠ .esc) (h3 : code ≠ .tab) :
    keyCodeToKey code ≠ .enter ∧ keyCodeToKey code ≠ .esc ∧ keyCodeToKey code ≠ .tab := by
  cases code <;> simp_all [keyCodeToKey]

set_option maxHeartbeats 1000000 in
/-- `key_map_for_textarea` reaches its `unreachable!()` arm only on the
`Enter`, `Esc` and `Tab` keys. -/
theorem key_map_no_unreachable (i : Input)
    (h1 : i.key ≠ .enter) (h2 : i.key ≠ .esc) (h3 : i.key ≠ .tab) :
    key_map_for_textarea i ≠ .unreachableBranch := by
  intro h
  unfold key_map_for_textarea at h
  split_ifs at h
  all_goals simp_all

/-- C10: `Tui::handle_key_events` intercepts every key event whose code is
`Enter`, `Esc` or `Tab` before the text-area fallthrough, and every input
it does forward to `key_map_for_textarea` avoids the `unreachable!()` arm
there. -/
theorem c10_unreachable_arm_never_hit (e : KeyEvent) (focus : Bool) :
    ((e.code = .enter ∨ e.code = .esc ∨ e.code = .tab) →
      ∀ i, handleKeyRoute e focus ≠ .textarea i) ∧
    (∀ i, handleKeyRoute e focus = .textarea i →
      key_map_for_textarea i ≠ .unreachableBranch) := by
  obtain ⟨code, mods, kind⟩ := e
  constructor
  · rintro (rfl | rfl | rfl) i <;> cases kind <;> cases focus <;>
      simp [handleKeyRoute]
  · intro i hi
    by_cases hk : kind = KeyEventKind.release
    · simp [handleKeyRoute, hk] at hi
    · have hfwd : i = inputOfKeyEvent ⟨code, mods, kind⟩ ∧
          code ≠ KeyCode.enter ∧ code ≠ KeyCode.esc ∧ code ≠ KeyCode.tab := by
        cases code <;> cases focus <;>
          simp_all [handleKeyRoute] <;>
          aesop
      obtain ⟨rfl, hc1, hc2, hc3⟩ := hfwd
      have hkeys := keyCodeToKey_not_intercepted code hc1 hc2 hc3
      exact key_map_no_unreachable _ hkeys.1 hkeys.2.1 hkeys.2.2

/-- Witness for C10 at a plain character key press forwarded to the text
area. -/
theorem c10_unreachable_arm_never_hit_witness :
    handleKeyRoute
        { code := KeyCode.char 'a'
          mods := { ctrl := false, shift := false, alt := false, moreMods := false }
          kind := KeyEventKind.press } true
      = KeyRoute.textarea { key := Key.char 'a', ctrl := false, shift := false, alt := false } ∧
    key_map_for_textarea { key := Key.char 'a', ctrl := false, shift := false, alt := false }
      ≠ TextareaEffect.unreachableBranch := by
  refine ⟨by decide, ?_⟩
  exact (c10_unreachable_arm_never_hit
    { code := KeyCode.char 'a'
      mods := { ctrl := false, shift := false, alt := false, moreMods := false }
      kind := KeyEventKind.press } true).2
    { key := Key.char 'a', ctrl := false, shift := false, alt := false } (by decide)

end Ery
